import Mathlib

/-!
Shallow embedding of the HC-SR04 ultrasonic driver (`HCSR04.cpp`) of the
Blind_Guidance repository, on the AVR ATmega2560 target:
`unsigned int` is 16 bits, `long`/`unsigned long` are 32 bits.

Hardware accesses (pin writes, pin-direction changes, delays, interrupt
register writes) are recorded as an explicit event trace.  The monotonic
microsecond clock `micros()` is passed as an explicit argument to the
operations that read it.  The echo pulse of the environment (the value returned
by `pulseInLong`) is an explicit argument of the blocking measurement.
-/

namespace HCSR04

/-- Modulus of `unsigned int` arithmetic on the AVR target. -/
def U16 : Nat := 65536

/-- Modulus of `unsigned long` arithmetic on the AVR target. -/
def U32 : Nat := 4294967296

/-- The C `unsigned long` subtraction `a - b` (wraparound modulo `2^32`). -/
def usub32 (a b : Nat) : Nat :=
  (a % U32 + (U32 - b % U32)) % U32

/-- The sensor mode, from `HCSR04_MODE_UNITITIALIZED` /
`HCSR04_MODE_USE_1_PIN` / `HCSR04_MODE_USE_2_PINS` in `HCSR04.h`. -/
inductive Mode where
  | uninitialized
  | onePin
  | twoPins
deriving DecidableEq, Repr

/-- One hardware access performed by the driver. -/
inductive HWEvent where
  /-- Event for `digitalWrite(pin, level)`; `true` is `HIGH`. -/
  | writePin (pin : Nat) (level : Bool)
  /-- Event for `pinMode(pin, dir)`; `true` is `OUTPUT`, `false` is `INPUT`. -/
  | setPinMode (pin : Nat) (isOutput : Bool)
  /-- Event for `delayMicroseconds(us)`. -/
  | delayMicros (us : Nat)
  /-- Event for `pulseInLong(pin, HIGH, timeoutMicros)`. -/
  | pulseIn (pin : Nat) (timeoutMicros : Nat)
  /-- Event for setting the echo bit in the `PCMSK` register (arm the pin). -/
  | pcmskSet (pin : Nat)
  /-- Event for clearing the echo bit in the `PCMSK` register (disarm the pin). -/
  | pcmskClear (pin : Nat)
  /-- Event for setting the bit of the echo group in `PCICR`. -/
  | pcicrSet (pin : Nat)
  /-- Event for setting the bit of the echo group in `PCIFR` (clears a pending interrupt). -/
  | pcifrSet (pin : Nat)
deriving DecidableEq, Repr

/-- Process-wide variables of the driver.  All interrupt registers are
reduced to the single bits the code touches (those of `sEchoInPin`). -/
structure State where
  sTriggerOutPin : Nat
  sEchoInPin : Nat
  sHCSR04Mode : Mode
  sUSDistanceCentimeter : Nat
  sUSPulseMicros : Nat
  sUSValueIsValid : Bool
  sMicrosAtStartOfPulse : Nat
  sTimeoutMicros : Nat
  /-- the bit of `sEchoInPin` in `*digitalPinToPCMSK(sEchoInPin)`. -/
  pcmskEchoBit : Bool
  /-- the bit of the echo group in `PCICR`. -/
  pcicrBit : Bool
  /-- the bit of the echo group in `PCIFR`. -/
  pcifrBit : Bool
deriving DecidableEq, Repr

/-- Globals of the C translation unit before any call: zero-initialized,
`sHCSR04Mode = HCSR04_MODE_UNITITIALIZED`, `sUSValueIsValid = false`. -/
def initialState : State :=
  { sTriggerOutPin := 0
    sEchoInPin := 0
    sHCSR04Mode := .uninitialized
    sUSDistanceCentimeter := 0
    sUSPulseMicros := 0
    sUSValueIsValid := false
    sMicrosAtStartOfPulse := 0
    sTimeoutMicros := 0
    pcmskEchoBit := false
    pcicrBit := false
    pcifrBit := false }

/-- Embeds `initUSDistancePins(aTriggerOutPin, aEchoInPin)`: records the pins
and the mode; in two-pin mode also configures the pin directions. -/
def initUSDistancePins (s : State) (aTriggerOutPin aEchoInPin : Nat) :
    State × List HWEvent :=
  let s := { s with sTriggerOutPin := aTriggerOutPin % 256 }
  if aEchoInPin % 256 = 0 then
    ({ s with sHCSR04Mode := .onePin }, [])
  else
    ({ s with sEchoInPin := aEchoInPin % 256, sHCSR04Mode := .twoPins },
      [.setPinMode (aTriggerOutPin % 256) true,
       .setPinMode (aEchoInPin % 256) false])

/-- Embeds `getCentimeterFromUSMicroSeconds(aDistanceMicros)`:
`(aDistanceMicros * 100L) / 5825`, with the `unsigned int` parameter
truncating its argument modulo `2^16`. -/
def getCentimeterFromUSMicroSeconds (aDistanceMicros : Nat) : Nat :=
  (aDistanceMicros % U16) * 100 / 5825

/-- Embeds `getUSDistance(aTimeoutMicros)`: the blocking measurement.  Returns 0
with no hardware access when uninitialized; otherwise emits the trigger
pulse and measures the echo.  `envPulseMicros` is the `unsigned long`
pulse duration that `pulseInLong` returns (0 on hardware timeout); the
`unsigned int` return truncates it modulo `2^16`. -/
def getUSDistance (s : State) (aTimeoutMicros : Nat) (envPulseMicros : Nat) :
    Nat × List HWEvent :=
  if s.sHCSR04Mode = .uninitialized then
    (0, [])
  else
    let tTimeout := aTimeoutMicros % U16
    let trace :=
      if s.sHCSR04Mode = .onePin then
        [HWEvent.writePin s.sTriggerOutPin true,
         .setPinMode s.sTriggerOutPin true,
         .delayMicros 10,
         .writePin s.sTriggerOutPin false,
         .delayMicros 20,
         .setPinMode s.sTriggerOutPin false,
         .pulseIn s.sTriggerOutPin tTimeout]
      else
        [HWEvent.writePin s.sTriggerOutPin true,
         .delayMicros 10,
         .writePin s.sTriggerOutPin false,
         .pulseIn s.sEchoInPin tTimeout]
    (envPulseMicros % U32 % U16, trace)

/-- Embeds `getUSDistanceAsCentiMeter(aTimeoutMicros)`. -/
def getUSDistanceAsCentiMeter (s : State) (aTimeoutMicros : Nat)
    (envPulseMicros : Nat) : Nat × List HWEvent :=
  let r := getUSDistance s aTimeoutMicros envPulseMicros
  (getCentimeterFromUSMicroSeconds r.1, r.2)

/-- The centimeter-to-microseconds timeout conversion of the blocking path,
`((aTimeoutCentimeter * 233L) + 2) / 4`: the product is computed in
32-bit `long`, and the quotient is truncated modulo `2^16` on assignment
to the `unsigned int` local. -/
def timeoutMicrosBlocking (aTimeoutCentimeter : Nat) : Nat :=
  ((aTimeoutCentimeter % U16) * 233 + 2) / 4 % U16

/-- Embeds `getUSDistanceAsCentiMeterWithCentimeterTimeout(aTimeoutCentimeter)`. -/
def getUSDistanceAsCentiMeterWithCentimeterTimeout (s : State)
    (aTimeoutCentimeter : Nat) (envPulseMicros : Nat) : Nat × List HWEvent :=
  getUSDistanceAsCentiMeter s (timeoutMicrosBlocking aTimeoutCentimeter)
    envPulseMicros

/-- The timeout conversion of the non-blocking path,
`((aTimeoutCentimeter * 233) + 2) / 4`: here `233` is a 16-bit `int`, so
the multiplication and addition wrap modulo `2^16` *before* the division
by 4. -/
def timeoutMicrosNonBlocking (aTimeoutCentimeter : Nat) : Nat :=
  ((aTimeoutCentimeter % U16) * 233 + 2) % U16 / 4

/-- Embeds `startUSDistanceAsCentiMeterWithCentimeterTimeoutNonBlocking`:
raises the trigger, clears the validity flag, stores the timeout, arms
the pin-change interrupt, zeroes the pulse fields, waits 10 µs and drops
the trigger.  There is no mode check. -/
def startUSDistanceAsCentiMeterWithCentimeterTimeoutNonBlocking
    (s : State) (aTimeoutCentimeter : Nat) : State × List HWEvent :=
  ({ s with
      sUSValueIsValid := false
      sTimeoutMicros := timeoutMicrosNonBlocking aTimeoutCentimeter
      pcmskEchoBit := true
      pcicrBit := true
      pcifrBit := true
      sUSPulseMicros := 0
      sMicrosAtStartOfPulse := 0 },
   [.writePin s.sTriggerOutPin true,
    .pcmskSet s.sEchoInPin,
    .pcicrSet s.sEchoInPin,
    .pcifrSet s.sEchoInPin,
    .delayMicros 10,
    .writePin s.sTriggerOutPin false])

/-- Embeds `handlePCInterrupt(aPortState)`: on a rising edge (`aPortState > 0`)
records `micros()` as the pulse start; on a falling edge stores
`micros() - sMicrosAtStartOfPulse` and sets the validity flag.
`now` is the current value of `micros()`. -/
def handlePCInterrupt (s : State) (aPortState : Nat) (now : Nat) : State :=
  if aPortState > 0 then
    { s with sMicrosAtStartOfPulse := now % U32 }
  else
    { s with
        sUSPulseMicros := usub32 now s.sMicrosAtStartOfPulse
        sUSValueIsValid := true }

/-- Embeds `isUSDistanceMeasureFinished()`: if the validity flag is set, converts
the stored pulse duration to centimeters and reports done; else if a
nonzero pulse-start timestamp was recorded and `micros()` minus it has
reached the stored timeout, disarms the pin and reports done; else
reports not done.  `now` is the current value of `micros()`. -/
def isUSDistanceMeasureFinished (s : State) (now : Nat) :
    Bool × State × List HWEvent :=
  if s.sUSValueIsValid then
    (true,
     { s with sUSDistanceCentimeter :=
        getCentimeterFromUSMicroSeconds s.sUSPulseMicros }, [])
  else if s.sMicrosAtStartOfPulse ≠ 0 ∧
      s.sTimeoutMicros ≤ usub32 now s.sMicrosAtStartOfPulse then
    (true, { s with pcmskEchoBit := false }, [.pcmskClear s.sEchoInPin])
  else
    (false, s, [])

/-- Recognizes a `digitalWrite(pin, HIGH)` event on the given pin. -/
def isHighWriteOf (pin : Nat) : HWEvent → Bool
  | .writePin p l => p == pin && l
  | _ => false

/-- Recognizes a `digitalWrite(pin, LOW)` event on the given pin. -/
def isLowWriteOf (pin : Nat) : HWEvent → Bool
  | .writePin p l => p == pin && !l
  | _ => false

/-- Recognizes a `pinMode(pin, OUTPUT)` event on the given pin. -/
def isOutputSwitchOf (pin : Nat) : HWEvent → Bool
  | .setPinMode p d => p == pin && d
  | _ => false

/-- Recognizes a `pinMode(pin, INPUT)` event on the given pin. -/
def isInputSwitchOf (pin : Nat) : HWEvent → Bool
  | .setPinMode p d => p == pin && !d
  | _ => false

/-- Index of the first event of a trace satisfying `p`, if any. -/
def firstIdx (p : HWEvent → Bool) : List HWEvent → Option Nat
  | [] => none
  | e :: rest => if p e then some 0 else (firstIdx p rest).map (· + 1)

/-- Total busy-wait microseconds occurring in a trace before the first
event satisfying `stop`. -/
def delaysBefore (stop : HWEvent → Bool) : List HWEvent → Nat
  | [] => 0
  | e :: rest =>
    if stop e then 0
    else
      match e with
      | .delayMicros us => us + delaysBefore stop rest
      | _ => delaysBefore stop rest

/-- Drops the events of a trace up to and including the first event
satisfying `p`. -/
def dropThrough (p : HWEvent → Bool) : List HWEvent → List HWEvent
  | [] => []
  | e :: rest => if p e then rest else dropThrough p rest

/-- How long the trigger pin is held high: the busy-wait time between the
first HIGH write on `pin` and the following LOW write on `pin`. -/
def highHoldMicros (pin : Nat) (trace : List HWEvent) : Nat :=
  delaysBefore (isLowWriteOf pin) (dropThrough (isHighWriteOf pin) trace)

/-- How long the trigger pin is held low before being switched to input:
the busy-wait time between the first LOW write on `pin` and the following
switch of `pin` to input direction. -/
def lowHoldBeforeInputMicros (pin : Nat) (trace : List HWEvent) : Nat :=
  delaysBefore (isInputSwitchOf pin) (dropThrough (isLowWriteOf pin) trace)

/-! Theorems settling the claims. -/

/-- C1 counterexample: after a started non-blocking measurement with no
edges at all, polling even `10^9` µs later (far past the stored timeout of
1091 µs) still reports not-done: the timeout branch is guarded by a
nonzero `sMicrosAtStartOfPulse`, which the start zeroed. -/
theorem poll_without_edges_not_done_after_timeout :
    (startUSDistanceAsCentiMeterWithCentimeterTimeoutNonBlocking
      (initUSDistancePins initialState 5 4).1 300).1.sTimeoutMicros = 1091 ∧
    (1091 : Nat) < 1000000000 ∧
    (isUSDistanceMeasureFinished
      (startUSDistanceAsCentiMeterWithCentimeterTimeoutNonBlocking
        (initUSDistancePins initialState 5 4).1 300).1 1000000000).1 = false := by
  decide

/-- C1 (amended): the non-blocking timeout is armed only once a rising
edge records a nonzero pulse-start timestamp.  With no edge, polling
never reports done; after a rising edge at a nonzero clock value, once
`micros()` minus the pulse start reaches the stored timeout the poll
reports done, disables the pin-change interrupt, leaves
`sUSDistanceCentimeter` unchanged, and leaves `sUSPulseMicros` at 0. -/
theorem nonblocking_timeout_fires_only_after_rising_edge
    (s : State) (c p t1 now n : Nat) (hp : 0 < p) (h1 : 0 < t1 % U32)
    (hto : (startUSDistanceAsCentiMeterWithCentimeterTimeoutNonBlocking
        s c).1.sTimeoutMicros ≤ usub32 now (t1 % U32)) :
    (isUSDistanceMeasureFinished
      (startUSDistanceAsCentiMeterWithCentimeterTimeoutNonBlocking s c).1
      n).1 = false ∧
    (isUSDistanceMeasureFinished
      (handlePCInterrupt
        (startUSDistanceAsCentiMeterWithCentimeterTimeoutNonBlocking s c).1
        p t1) now).1 = true ∧
    (isUSDistanceMeasureFinished
      (handlePCInterrupt
        (startUSDistanceAsCentiMeterWithCentimeterTimeoutNonBlocking s c).1
        p t1) now).2.1.pcmskEchoBit = false ∧
    (isUSDistanceMeasureFinished
      (handlePCInterrupt
        (startUSDistanceAsCentiMeterWithCentimeterTimeoutNonBlocking s c).1
        p t1) now).2.1.sUSDistanceCentimeter = s.sUSDistanceCentimeter ∧
    (isUSDistanceMeasureFinished
      (handlePCInterrupt
        (startUSDistanceAsCentiMeterWithCentimeterTimeoutNonBlocking s c).1
        p t1) now).2.1.sUSPulseMicros = 0 := by
  simp only [isUSDistanceMeasureFinished, handlePCInterrupt,
    startUSDistanceAsCentiMeterWithCentimeterTimeoutNonBlocking, hp,
    if_pos] at *
  simp_all [Nat.pos_iff_ne_zero]

/-- C1 witness: concrete run with timeout 300 cm (stored 1091 µs), rising
edge at 100 µs, poll at 1191 µs. -/
theorem nonblocking_timeout_fires_only_after_rising_edge_witness :
    ((0 : Nat) < 1 ∧ (0 : Nat) < 100 % U32 ∧
      (startUSDistanceAsCentiMeterWithCentimeterTimeoutNonBlocking
        initialState 300).1.sTimeoutMicros ≤ usub32 1191 (100 % U32)) ∧
    ((isUSDistanceMeasureFinished
      (startUSDistanceAsCentiMeterWithCentimeterTimeoutNonBlocking
        initialState 300).1 50).1 = false ∧
    (isUSDistanceMeasureFinished
      (handlePCInterrupt
        (startUSDistanceAsCentiMeterWithCentimeterTimeoutNonBlocking
          initialState 300).1 1 100) 1191).1 = true ∧
    (isUSDistanceMeasureFinished
      (handlePCInterrupt
        (startUSDistanceAsCentiMeterWithCentimeterTimeoutNonBlocking
          initialState 300).1 1 100) 1191).2.1.pcmskEchoBit = false ∧
    (isUSDistanceMeasureFinished
      (handlePCInterrupt
        (startUSDistanceAsCentiMeterWithCentimeterTimeoutNonBlocking
          initialState 300).1 1 100) 1191).2.1.sUSDistanceCentimeter =
      initialState.sUSDistanceCentimeter ∧
    (isUSDistanceMeasureFinished
      (handlePCInterrupt
        (startUSDistanceAsCentiMeterWithCentimeterTimeoutNonBlocking
          initialState 300).1 1 100) 1191).2.1.sUSPulseMicros = 0) :=
  ⟨⟨by decide, by decide, by decide⟩,
   nonblocking_timeout_fires_only_after_rising_edge initialState 300 1 100
     1191 50 (by decide) (by decide) (by decide)⟩

/-- C2 counterexample: while the driver is still uninitialized, the
non-blocking start performs hardware accesses (it has no mode guard),
beginning with a `digitalWrite` on the default trigger pin 0. -/
theorem startNonBlocking_uninitialized_touches_hardware :
    initialState.sHCSR04Mode = Mode.uninitialized ∧
    (startUSDistanceAsCentiMeterWithCentimeterTimeoutNonBlocking
      initialState 300).2 ≠ [] ∧
    HWEvent.writePin 0 true ∈
      (startUSDistanceAsCentiMeterWithCentimeterTimeoutNonBlocking
        initialState 300).2 := by
  decide

/-- C2 (amended): while the mode is Uninitialized the blocking
measurement operations return the sentinel 0 with an empty hardware
trace; the non-blocking start, however, performs its trigger-pulse and
interrupt-register writes unconditionally, in any mode. -/
theorem uninitialized_blocking_returns_zero_without_hardware
    (s : State) (h : s.sHCSR04Mode = Mode.uninitialized) (t c env : Nat) :
    getUSDistance s t env = (0, []) ∧
    getUSDistanceAsCentiMeter s t env = (0, []) ∧
    getUSDistanceAsCentiMeterWithCentimeterTimeout s c env = (0, []) ∧
    (startUSDistanceAsCentiMeterWithCentimeterTimeoutNonBlocking s c).2 =
      [.writePin s.sTriggerOutPin true, .pcmskSet s.sEchoInPin,
       .pcicrSet s.sEchoInPin, .pcifrSet s.sEchoInPin,
       .delayMicros 10, .writePin s.sTriggerOutPin false] := by
  simp [getUSDistance, getUSDistanceAsCentiMeter,
    getUSDistanceAsCentiMeterWithCentimeterTimeout,
    getCentimeterFromUSMicroSeconds,
    startUSDistanceAsCentiMeterWithCentimeterTimeoutNonBlocking, h]

/-- C2 witness: the fresh global state with a 20000 µs / 300 cm timeout. -/
theorem uninitialized_blocking_returns_zero_without_hardware_witness :
    initialState.sHCSR04Mode = Mode.uninitialized ∧
    (getUSDistance initialState 20000 0 = (0, []) ∧
    getUSDistanceAsCentiMeter initialState 20000 0 = (0, []) ∧
    getUSDistanceAsCentiMeterWithCentimeterTimeout initialState 300 0 =
      (0, []) ∧
    (startUSDistanceAsCentiMeterWithCentimeterTimeoutNonBlocking
      initialState 300).2 =
      [.writePin initialState.sTriggerOutPin true,
       .pcmskSet initialState.sEchoInPin,
       .pcicrSet initialState.sEchoInPin,
       .pcifrSet initialState.sEchoInPin,
       .delayMicros 10, .writePin initialState.sTriggerOutPin false]) :=
  ⟨by decide,
   uninitialized_blocking_returns_zero_without_hardware initialState
     (by decide) 20000 300 0⟩

/-- C3 counterexample: at `timeoutCentimeter = 300` (the value the
application itself passes) the non-blocking path stores 1091 µs, while
`floor((300 * 233 + 2) / 4) = 17475` and the blocking path computes
17475: the 16-bit multiply-add wraps modulo `2^16` before the division
by 4. -/
theorem nonblocking_timeout_micros_wraps_at_300 :
    timeoutMicrosNonBlocking 300 = 1091 ∧
    (300 * 233 + 2) / 4 = 17475 ∧
    timeoutMicrosBlocking 300 = 17475 ∧
    timeoutMicrosNonBlocking 300 ≠ timeoutMicrosBlocking 300 := by
  decide

/-- C3 (amended): for `timeoutCentimeter ≤ 281` — exactly when
`timeoutCentimeter * 233 + 2 < 2^16` — the non-blocking stored timeout
equals `floor((timeoutCentimeter * 233 + 2) / 4)` and agrees with the
blocking path; for larger values the non-blocking 16-bit multiply-add
wraps modulo `2^16` before the division by 4, while the blocking path
multiplies in 32-bit `long` and truncates only after dividing, so the
two differ. -/
theorem timeout_micros_paths_agree_below_wraparound
    (c : Nat) (h : c ≤ 281) :
    timeoutMicrosNonBlocking c = (c * 233 + 2) / 4 ∧
    timeoutMicrosNonBlocking c = timeoutMicrosBlocking c := by
  have hc : c % 65536 = c := Nat.mod_eq_of_lt (by omega)
  have h2 : (c * 233 + 2) % 65536 = c * 233 + 2 := Nat.mod_eq_of_lt (by omega)
  have h3 : (c * 233 + 2) / 4 % 65536 = (c * 233 + 2) / 4 :=
    Nat.mod_eq_of_lt (by omega)
  simp only [timeoutMicrosNonBlocking, timeoutMicrosBlocking, U16, hc, h2, h3]
  exact ⟨trivial, trivial⟩

/-- C3 witness: at 100 cm both paths store 5825 µs. -/
theorem timeout_micros_paths_agree_below_wraparound_witness :
    (100 : Nat) ≤ 281 ∧
    (timeoutMicrosNonBlocking 100 = (100 * 233 + 2) / 4 ∧
      timeoutMicrosNonBlocking 100 = timeoutMicrosBlocking 100) :=
  ⟨by decide, timeout_micros_paths_agree_below_wraparound 100 (by decide)⟩

/-- C4 (confirmed): polling right after the non-blocking start, before
any edge, reports not-done; after a rising edge at `t1` and a falling
edge at `t1 + d`, polling reports done with result
`getCentimeterFromUSMicroSeconds d`. -/
theorem nonblocking_edge_pair_reports_distance
    (s : State) (c t1 d n m : Nat) (h1 : t1 + d < U32) :
    (isUSDistanceMeasureFinished
      (startUSDistanceAsCentiMeterWithCentimeterTimeoutNonBlocking s c).1
      n).1 = false ∧
    (isUSDistanceMeasureFinished
      (handlePCInterrupt
        (handlePCInterrupt
          (startUSDistanceAsCentiMeterWithCentimeterTimeoutNonBlocking
            s c).1 1 t1)
        0 (t1 + d)) m).1 = true ∧
    (isUSDistanceMeasureFinished
      (handlePCInterrupt
        (handlePCInterrupt
          (startUSDistanceAsCentiMeterWithCentimeterTimeoutNonBlocking
            s c).1 1 t1)
        0 (t1 + d)) m).2.1.sUSDistanceCentimeter =
      getCentimeterFromUSMicroSeconds d := by
  have ht1 : t1 % U32 = t1 := Nat.mod_eq_of_lt (by simp [U32] at *; omega)
  have hsub : usub32 (t1 + d) t1 = d := by
    simp only [usub32, U32] at *
    omega
  simp [isUSDistanceMeasureFinished, handlePCInterrupt,
    startUSDistanceAsCentiMeterWithCentimeterTimeoutNonBlocking, ht1, hsub]

/-- C4 witness: a 5825 µs pulse (rising at 100 µs, falling at 5925 µs)
reads back as 100 cm. -/
theorem nonblocking_edge_pair_reports_distance_witness :
    (100 : Nat) + 5825 < U32 ∧
    ((isUSDistanceMeasureFinished
      (startUSDistanceAsCentiMeterWithCentimeterTimeoutNonBlocking
        initialState 300).1 7).1 = false ∧
    (isUSDistanceMeasureFinished
      (handlePCInterrupt
        (handlePCInterrupt
          (startUSDistanceAsCentiMeterWithCentimeterTimeoutNonBlocking
            initialState 300).1 1 100)
        0 (100 + 5825)) 8).1 = true ∧
    (isUSDistanceMeasureFinished
      (handlePCInterrupt
        (handlePCInterrupt
          (startUSDistanceAsCentiMeterWithCentimeterTimeoutNonBlocking
            initialState 300).1 1 100)
        0 (100 + 5825)) 8).2.1.sUSDistanceCentimeter =
      getCentimeterFromUSMicroSeconds 5825) :=
  ⟨by decide,
   nonblocking_edge_pair_reports_distance initialState 300 100 5825 7 8
     (by decide)⟩

/-- C5 (confirmed): for every `c` in `[1, 1000]`, converting the
centimeter timeout to microseconds and back yields a value within 1 of
`c`. -/
theorem conversions_are_approximate_inverses
    (c : Nat) (h1 : 1 ≤ c) (h2 : c ≤ 1000) :
    getCentimeterFromUSMicroSeconds (timeoutMicrosBlocking c) ≤ c + 1 ∧
    c ≤ getCentimeterFromUSMicroSeconds (timeoutMicrosBlocking c) + 1 := by
  have hc : c % 65536 = c := Nat.mod_eq_of_lt (by omega)
  have h3 : (c * 233 + 2) / 4 % 65536 = (c * 233 + 2) / 4 :=
    Nat.mod_eq_of_lt (by omega)
  simp only [getCentimeterFromUSMicroSeconds, timeoutMicrosBlocking, U16,
    hc, h3]
  omega

/-- C5 witness: the round trip at 100 cm. -/
theorem conversions_are_approximate_inverses_witness :
    ((1 : Nat) ≤ 100 ∧ (100 : Nat) ≤ 1000) ∧
    (getCentimeterFromUSMicroSeconds (timeoutMicrosBlocking 100) ≤ 101 ∧
      100 ≤ getCentimeterFromUSMicroSeconds (timeoutMicrosBlocking 100) + 1) :=
  ⟨⟨by decide, by decide⟩,
   conversions_are_approximate_inverses 100 (by decide) (by decide)⟩

/-- C6 (confirmed): the anchor equalities of the two pure unit
conversions, for the blocking formula and (at these inputs) also for the
non-blocking formula. -/
theorem conversion_anchor_equalities :
    getCentimeterFromUSMicroSeconds 0 = 0 ∧
    getCentimeterFromUSMicroSeconds 5825 = 100 ∧
    timeoutMicrosBlocking 100 = 5825 ∧
    timeoutMicrosBlocking 0 = 0 ∧
    timeoutMicrosNonBlocking 100 = 5825 ∧
    timeoutMicrosNonBlocking 0 = 0 := by
  decide

/-- C7 counterexample: in one-pin mode the busy-wait between driving the
trigger pin high and driving it low is 10 µs, not the claimed 20 µs. -/
theorem onePin_high_hold_measured_ten_not_twenty :
    highHoldMicros 5
      (getUSDistance
        { initialState with sHCSR04Mode := Mode.onePin, sTriggerOutPin := 5 }
        20000 0).2 = 10 ∧
    ¬ highHoldMicros 5
      (getUSDistance
        { initialState with sHCSR04Mode := Mode.onePin, sTriggerOutPin := 5 }
        20000 0).2 = 20 := by
  decide

/-- C7 (amended): in one-pin mode the trigger pin is held high for 10 µs
before being driven low — the same hold as in two-pin mode (which meets
the at-least-10 µs requirement); the one-pin 20 µs delay occurs after
the pin is driven low, before its direction is switched to input. -/
theorem trigger_high_hold_and_low_hold_micros
    (s : State) (t env : Nat) (h : s.sHCSR04Mode = Mode.onePin) :
    highHoldMicros s.sTriggerOutPin (getUSDistance s t env).2 = 10 ∧
    lowHoldBeforeInputMicros s.sTriggerOutPin (getUSDistance s t env).2 =
      20 ∧
    highHoldMicros s.sTriggerOutPin
      (getUSDistance { s with sHCSR04Mode := Mode.twoPins } t env).2 = 10 := by
  simp [getUSDistance, h, highHoldMicros, lowHoldBeforeInputMicros,
    dropThrough, delaysBefore, isHighWriteOf, isLowWriteOf, isInputSwitchOf]

/-- C7 witness: the one-pin state on pin 5 with a 20000 µs timeout. -/
theorem trigger_high_hold_and_low_hold_micros_witness :
    ({ initialState with
        sHCSR04Mode := Mode.onePin,
        sTriggerOutPin := 5 } : State).sHCSR04Mode = Mode.onePin ∧
    (highHoldMicros 5
      (getUSDistance
        { initialState with sHCSR04Mode := Mode.onePin, sTriggerOutPin := 5 }
        20000 0).2 = 10 ∧
    lowHoldBeforeInputMicros 5
      (getUSDistance
        { initialState with sHCSR04Mode := Mode.onePin, sTriggerOutPin := 5 }
        20000 0).2 = 20 ∧
    highHoldMicros 5
      (getUSDistance
        { { initialState with
              sHCSR04Mode := Mode.onePin,
              sTriggerOutPin := 5 } with sHCSR04Mode := Mode.twoPins }
        20000 0).2 = 10) :=
  ⟨by decide,
   trigger_high_hold_and_low_hold_micros
     { initialState with sHCSR04Mode := Mode.onePin, sTriggerOutPin := 5 }
     20000 0 (by decide)⟩

/-- C8 (confirmed): in the one-pin blocking trace the first HIGH write on
the shared pin sits at index 0 and the first switch of that pin to
output direction at index 1, so the HIGH write strictly precedes the
direction switch. -/
theorem onePin_high_write_precedes_output_switch
    (s : State) (t env : Nat) (h : s.sHCSR04Mode = Mode.onePin) :
    firstIdx (isHighWriteOf s.sTriggerOutPin) (getUSDistance s t env).2 =
      some 0 ∧
    firstIdx (isOutputSwitchOf s.sTriggerOutPin) (getUSDistance s t env).2 =
      some 1 := by
  simp [getUSDistance, h, firstIdx, isHighWriteOf, isOutputSwitchOf]

/-- C8 witness: the one-pin state on pin 5 with a 20000 µs timeout. -/
theorem onePin_high_write_precedes_output_switch_witness :
    ({ initialState with
        sHCSR04Mode := Mode.onePin,
        sTriggerOutPin := 5 } : State).sHCSR04Mode = Mode.onePin ∧
    (firstIdx (isHighWriteOf 5)
      (getUSDistance
        { initialState with sHCSR04Mode := Mode.onePin, sTriggerOutPin := 5 }
        20000 0).2 = some 0 ∧
    firstIdx (isOutputSwitchOf 5)
      (getUSDistance
        { initialState with sHCSR04Mode := Mode.onePin, sTriggerOutPin := 5 }
        20000 0).2 = some 1) :=
  ⟨by decide,
   onePin_high_write_precedes_output_switch
     { initialState with sHCSR04Mode := Mode.onePin, sTriggerOutPin := 5 }
     20000 0 (by decide)⟩

/-- C9 (confirmed): if the first edge after the non-blocking start is a
falling edge at clock value `t`, the handler subtracts the cleared
start timestamp 0, stores `t` as the pulse duration and sets the
validity flag, so a subsequent poll reports done with
`getCentimeterFromUSMicroSeconds t`. -/
theorem spurious_falling_edge_completes_measurement
    (s : State) (c t n : Nat) (h : t < U32) :
    (handlePCInterrupt
      (startUSDistanceAsCentiMeterWithCentimeterTimeoutNonBlocking s c).1
      0 t).sUSValueIsValid = true ∧
    (handlePCInterrupt
      (startUSDistanceAsCentiMeterWithCentimeterTimeoutNonBlocking s c).1
      0 t).sUSPulseMicros = t ∧
    (isUSDistanceMeasureFinished
      (handlePCInterrupt
        (startUSDistanceAsCentiMeterWithCentimeterTimeoutNonBlocking s c).1
        0 t) n).1 = true ∧
    (isUSDistanceMeasureFinished
      (handlePCInterrupt
        (startUSDistanceAsCentiMeterWithCentimeterTimeoutNonBlocking s c).1
        0 t) n).2.1.sUSDistanceCentimeter =
      getCentimeterFromUSMicroSeconds t := by
  have hsub : usub32 t 0 = t := by
    simp only [usub32, U32] at *
    omega
  simp [isUSDistanceMeasureFinished, handlePCInterrupt,
    startUSDistanceAsCentiMeterWithCentimeterTimeoutNonBlocking, hsub]

/-- C9 witness: a lone falling edge at 5825 µs reads back as 100 cm. -/
theorem spurious_falling_edge_completes_measurement_witness :
    (5825 : Nat) < U32 ∧
    ((handlePCInterrupt
      (startUSDistanceAsCentiMeterWithCentimeterTimeoutNonBlocking
        initialState 300).1 0 5825).sUSValueIsValid = true ∧
    (handlePCInterrupt
      (startUSDistanceAsCentiMeterWithCentimeterTimeoutNonBlocking
        initialState 300).1 0 5825).sUSPulseMicros = 5825 ∧
    (isUSDistanceMeasureFinished
      (handlePCInterrupt
        (startUSDistanceAsCentiMeterWithCentimeterTimeoutNonBlocking
          initialState 300).1 0 5825) 9).1 = true ∧
    (isUSDistanceMeasureFinished
      (handlePCInterrupt
        (startUSDistanceAsCentiMeterWithCentimeterTimeoutNonBlocking
          initialState 300).1 0 5825) 9).2.1.sUSDistanceCentimeter =
      getCentimeterFromUSMicroSeconds 5825) :=
  ⟨by decide,
   spurious_falling_edge_completes_measurement initialState 300 5825 9
     (by decide)⟩

/-- C10 (confirmed): once the validity flag is set, every poll reports
done with the same converted result; the success branch leaves the
validity flag and the interrupt-enable bit untouched and is idempotent
on the state, and only the non-blocking start clears the flag again. -/
theorem poll_completion_is_stable
    (s : State) (n m c : Nat) (h : s.sUSValueIsValid = true) :
    (isUSDistanceMeasureFinished s n).1 = true ∧
    (isUSDistanceMeasureFinished s n).2.1.sUSValueIsValid = true ∧
    (isUSDistanceMeasureFinished s n).2.1.pcmskEchoBit = s.pcmskEchoBit ∧
    (isUSDistanceMeasureFinished s n).2.1.sUSDistanceCentimeter =
      getCentimeterFromUSMicroSeconds s.sUSPulseMicros ∧
    (isUSDistanceMeasureFinished
      (isUSDistanceMeasureFinished s n).2.1 m).1 = true ∧
    (isUSDistanceMeasureFinished
      (isUSDistanceMeasureFinished s n).2.1 m).2.1 =
      (isUSDistanceMeasureFinished s n).2.1 ∧
    (startUSDistanceAsCentiMeterWithCentimeterTimeoutNonBlocking
      s c).1.sUSValueIsValid = false := by
  simp [isUSDistanceMeasureFinished, h,
    startUSDistanceAsCentiMeterWithCentimeterTimeoutNonBlocking]

/-- C10 witness: a completed 5825 µs measurement polled twice. -/
theorem poll_completion_is_stable_witness :
    ({ initialState with
        sUSValueIsValid := true,
        sUSPulseMicros := 5825,
        pcmskEchoBit := true } : State).sUSValueIsValid = true ∧
    ((isUSDistanceMeasureFinished
      { initialState with
          sUSValueIsValid := true,
          sUSPulseMicros := 5825,
          pcmskEchoBit := true } 1).1 = true ∧
    (isUSDistanceMeasureFinished
      { initialState with
          sUSValueIsValid := true,
          sUSPulseMicros := 5825,
          pcmskEchoBit := true } 1).2.1.sUSValueIsValid = true ∧
    (isUSDistanceMeasureFinished
      { initialState with
          sUSValueIsValid := true,
          sUSPulseMicros := 5825,
          pcmskEchoBit := true } 1).2.1.pcmskEchoBit =
      ({ initialState with
          sUSValueIsValid := true,
          sUSPulseMicros := 5825,
          pcmskEchoBit := true } : State).pcmskEchoBit ∧
    (isUSDistanceMeasureFinished
      { initialState with
          sUSValueIsValid := true,
          sUSPulseMicros := 5825,
          pcmskEchoBit := true } 1).2.1.sUSDistanceCentimeter =
      getCentimeterFromUSMicroSeconds 5825 ∧
    (isUSDistanceMeasureFinished
      (isUSDistanceMeasureFinished
        { initialState with
            sUSValueIsValid := true,
            sUSPulseMicros := 5825,
            pcmskEchoBit := true } 1).2.1 2).1 = true ∧
    (isUSDistanceMeasureFinished
      (isUSDistanceMeasureFinished
        { initialState with
            sUSValueIsValid := true,
            sUSPulseMicros := 5825,
            pcmskEchoBit := true } 1).2.1 2).2.1 =
      (isUSDistanceMeasureFinished
        { initialState with
            sUSValueIsValid := true,
            sUSPulseMicros := 5825,
            pcmskEchoBit := true } 1).2.1 ∧
    (startUSDistanceAsCentiMeterWithCentimeterTimeoutNonBlocking
      { initialState with
          sUSValueIsValid := true,
          sUSPulseMicros := 5825,
          pcmskEchoBit := true } 300).1.sUSValueIsValid = false) :=
  ⟨by decide,
   poll_completion_is_stable
     { initialState with
         sUSValueIsValid := true,
         sUSPulseMicros := 5825,
         pcmskEchoBit := true } 1 2 300 (by decide)⟩

end HCSR04
